import Mathlib

/-!
Verification of the `mlenvdoctor` diagnostic tool against its
natural-language specification.  The Python sources are shallowly embedded:
pure string manipulation becomes Lean functions on `String`/`List Char`,
exceptions become `Except`, thread-pool nondeterminism becomes an explicit
completion-order parameter, and file/console output becomes explicit state
passing.
-/

set_option maxHeartbeats 1000000
set_option maxRecDepth 8000

deriving instance DecidableEq for Except

namespace MlEnvDoctor

/-! ## Python string primitives used by the repository -/

/-- Python `str.isspace` restricted to the ASCII whitespace characters
(space, TAB, LF, VT, FF, CR); these are the only whitespace characters the
repository ever manipulates. -/
def pyIsSpace (c : Char) : Bool :=
  c.toNat = 32 || c.toNat = 9 || c.toNat = 10 || c.toNat = 11 || c.toNat = 12 || c.toNat = 13

/-- Python `needle in hay` on strings: substring containment. -/
def pyIn (needle hay : String) : Bool :=
  decide (needle.data <:+: hay.data)

/-- Python `s.split()[0]`: the first whitespace-separated token of `s`
(leading whitespace skipped, then characters up to the next whitespace). -/
def firstToken (s : String) : String :=
  ⟨(s.data.dropWhile pyIsSpace).takeWhile (fun c => !pyIsSpace c)⟩

/-- Python `s.strip()`: remove leading and trailing whitespace. -/
def pyStrip (s : String) : String :=
  ⟨((s.data.dropWhile pyIsSpace).reverse.dropWhile pyIsSpace).reverse⟩

/-- Python `str.lower` on a single ASCII character (`A`..`Z` shifted by 32,
all other characters unchanged); the repository only lowercases strings
already validated to be ASCII. -/
def pyLowerChar (c : Char) : Char :=
  if 65 ≤ c.toNat && c.toNat ≤ 90 then Char.ofNat (c.toNat + 32) else c

/-- Python `s.lower()` (characterwise, ASCII). -/
def pyLower (s : String) : String :=
  ⟨s.data.map pyLowerChar⟩

/-! ## exceptions.py -/

/-- `exceptions.ConfigurationError`: message plus remediation suggestion. -/
structure ConfigurationError where
  message : String
  suggestion : String
deriving DecidableEq, Repr

/-! ## diagnose.py — the diagnostic record -/

/-- `diagnose.DiagnosticIssue`: the only data record of the repository. -/
structure DiagnosticIssue where
  name : String
  status : String
  severity : String
  fix : String
  details : Option String := none
deriving DecidableEq, Repr

/-! ## validators.py -/

/-- A Python value appearing in a command-argument list: a `str`, or a value
of any other type (only its non-`str`-ness is ever observed). -/
inductive PyArg
  | str (s : String)
  | nonStr
deriving DecidableEq, Repr

/-- The character class of the regex `^[a-zA-Z0-9._-]+$` in
`validate_model_name` (comparisons on code points). -/
def modelNameClass (c : Char) : Bool :=
  (97 ≤ c.toNat && c.toNat ≤ 122) ||      -- a-z
  (65 ≤ c.toNat && c.toNat ≤ 90) ||       -- A-Z
  (48 ≤ c.toNat && c.toNat ≤ 57) ||       -- 0-9
  c.toNat = 46 || c.toNat = 95 || c.toNat = 45  -- . _ -

/-- The character class of the lowercase regex `^[a-z0-9._-]+$` (the class
the spec says every accepted, sanitized model name matches). -/
def lowerNameClass (c : Char) : Bool :=
  (97 ≤ c.toNat && c.toNat ≤ 122) ||
  (48 ≤ c.toNat && c.toNat ≤ 57) ||
  c.toNat = 46 || c.toNat = 95 || c.toNat = 45

/-- `validators.validate_model_name`: reject empty input, strip whitespace,
require the stripped name to match `^[a-zA-Z0-9._-]+$`, return it
lowercased. -/
def validate_model_name (model_name : String) : Except ConfigurationError String :=
  if model_name = "" then
    .error ⟨"Model name must be a non-empty string",
            "Use a valid model name like \x27tinyllama\x27, \x27gpt2\x27, or \x27mistral-7b\x27"⟩
  else
    let stripped := pyStrip model_name
    if stripped.data ≠ [] ∧ stripped.data.all modelNameClass then
      .ok (pyLower stripped)
    else
      .error ⟨"Invalid model name: " ++ stripped,
              "Model name can only contain letters, numbers, dots, underscores, and hyphens"⟩

/-- The `dangerous_patterns` list of `validators.sanitize_command`. -/
def dangerous_patterns : List String := [";", "&&", "||", "`", "$(", "<", ">", "|"]

/-- One iteration of the argument loop of `sanitize_command`: reject
non-strings, then reject the first dangerous pattern contained in the
argument. -/
def sanitizeArg (arg : PyArg) : Except ConfigurationError String :=
  match arg with
  | .nonStr =>
      .error ⟨"All command arguments must be strings", "Convert all arguments to strings"⟩
  | .str s =>
      match dangerous_patterns.find? (fun p => pyIn p s) with
      | some p =>
          .error ⟨"Dangerous pattern detected in command: " ++ p,
                  "Do not use shell operators in command arguments"⟩
      | none => .ok s

/-- The argument loop of `sanitize_command`, accumulating `sanitized` and
raising at the first offending argument. -/
def sanitizeArgs : List PyArg → Except ConfigurationError (List String)
  | [] => .ok []
  | a :: rest => do
      let s ← sanitizeArg a
      let t ← sanitizeArgs rest
      pure (s :: t)

/-- `validators.sanitize_command`: reject an empty command list, then run
the argument loop. -/
def sanitize_command (cmd : List PyArg) : Except ConfigurationError (List String) :=
  if cmd = [] then
    .error ⟨"Command must be a non-empty list", "Provide command as a list of strings"⟩
  else
    sanitizeArgs cmd

/-- An argument `sanitize_command` rejects: a non-string, or a string
containing one of the dangerous substrings. -/
def badArg (a : PyArg) : Bool :=
  match a with
  | .nonStr => true
  | .str s => dangerous_patterns.any (fun p => pyIn p s)

/-! ## parallel.py

Thread-pool nondeterminism is embedded by passing the scheduler's
completion order explicitly: `concurrent.futures.as_completed` yields every
submitted future exactly once, in some order that is a permutation of the
submissions, so the collection loops are functions of that order. -/

/-- `run_parallel`'s failure modes: a task exception re-raised by the
collection loop, or the `RuntimeError` raised when fewer than
`len(items_list)` results were collected. -/
inductive RunParallelError (ε : Type)
  | raised (e : ε)
  | incomplete
deriving DecidableEq, Repr

/-- The `as_completed` loop of `run_parallel`: walk the futures in
completion order, appending each normal result to `results` and re-raising
the first exception reached. -/
def collectLoop {α β ε : Type} (f : α → Except ε β) (items : List α) :
    List (Fin items.length) → Except ε (List β)
  | [] => .ok []
  | i :: rest =>
    match f (items.get i) with
    | .error e => .error e
    | .ok r => (collectLoop f items rest).map (fun rs => r :: rs)

/-- `parallel.run_parallel` with the completion order explicit: empty input
short-circuits to `[]`; otherwise results are appended in completion order,
task exceptions re-raise, and a completed count different from the item
count raises `RuntimeError`. -/
def run_parallel {α β ε : Type} (f : α → Except ε β) (items : List α)
    (order : List (Fin items.length)) : Except (RunParallelError ε) (List β) :=
  if items.isEmpty then .ok []
  else
    match collectLoop f items order with
    | .error e => .error (.raised e)
    | .ok rs => if rs.length = items.length then .ok rs else .error .incomplete

/-- `parallel.run_parallel_with_results` with the completion order
explicit: each future yields `(item, result)` on normal return and
`(item, exception)` on a raised exception; nothing is re-raised. -/
def run_parallel_with_results {α β ε : Type} (f : α → Except ε β) (items : List α)
    (order : List (Fin items.length)) : List (α × Except ε β) :=
  if items.isEmpty then []
  else order.map (fun i => (items.get i, f (items.get i)))

/-! ## retry.py

`time.sleep` durations are recorded in a trace; delays are modelled as
rationals (the Python floats `1.0` and `2.0` and their products in this
repository are exactly representable). -/

/-- One attempted call of the function wrapped by `retry`: a normal
return, an exception of a type listed in `exceptions`, or an exception of
an unlisted type. -/
inductive AttemptOutcome (ε α : Type)
  | ok (v : α)
  | listed (e : ε)
  | unlisted (e : ε)
deriving DecidableEq, Repr

/-- The observable outcome of calling a `retry`-wrapped function. -/
inductive RetryResult (ε α : Type)
  | success (v : α)
  /-- `DiagnosticError` raised `from` the last listed exception. -/
  | diagnosticError (last : ε)
  /-- the guard `RuntimeError("Retry logic failed unexpectedly")`. -/
  | runtimeError
  /-- an unlisted exception escapes the `except exceptions` clause. -/
  | propagated (e : ε)
deriving DecidableEq, Repr

/-- Trace of one call of a `retry`-wrapped function: outcome, number of
invocations of the underlying function, and each `time.sleep` argument in
order. -/
structure RetryTrace (ε α : Type) where
  result : RetryResult ε α
  calls : Nat
  sleeps : List ℚ
deriving DecidableEq, Repr

/-- The `for attempt in range(1, max_attempts + 1)` loop of the `retry`
wrapper.  `attempt` is the 1-based index of the next invocation,
`remaining` the number of loop iterations left, `curDelay` the current
sleep duration, `lastE` the last listed exception seen.  A success or an
unlisted exception leaves the loop at once; a listed exception sleeps
`curDelay` and multiplies it by `backoff` unless this was the final
attempt; an exhausted loop raises `DiagnosticError` from the last listed
exception, or the guard `RuntimeError` if no attempt ever ran. -/
def retryLoop {ε α : Type} (outcomes : Nat → AttemptOutcome ε α) (backoff : ℚ) :
    Nat → Nat → ℚ → Option ε → RetryTrace ε α
  | _, 0, _, lastE =>
    match lastE with
    | some e => ⟨.diagnosticError e, 0, []⟩
    | none => ⟨.runtimeError, 0, []⟩
  | attempt, r + 1, curDelay, _ =>
    match outcomes attempt with
    | .ok v => ⟨.success v, 1, []⟩
    | .unlisted e => ⟨.propagated e, 1, []⟩
    | .listed e =>
      if r = 0 then
        let rest := retryLoop outcomes backoff (attempt + 1) r curDelay (some e)
        ⟨rest.result, rest.calls + 1, rest.sleeps⟩
      else
        let rest := retryLoop outcomes backoff (attempt + 1) r (curDelay * backoff) (some e)
        ⟨rest.result, rest.calls + 1, curDelay :: rest.sleeps⟩

/-- A call of a function wrapped by
`retry(max_attempts, delay, backoff, exceptions)`, as a function of the
outcome of each attempt. -/
def retryCall {ε α : Type} (maxAttempts : Nat) (delay backoff : ℚ)
    (outcomes : Nat → AttemptOutcome ε α) : RetryTrace ε α :=
  retryLoop outcomes backoff 1 maxAttempts delay none

/-- `retry.retry_network`: the `retry` decorator specialised to
`max_attempts=3, delay=1.0, backoff=2.0` (the listed/unlisted split of the
outcomes encodes the `(ConnectionError, TimeoutError, OSError)` tuple). -/
def retry_network {ε α : Type} (outcomes : Nat → AttemptOutcome ε α) : RetryTrace ε α :=
  retryCall 3 1 2 outcomes

/-! ## Formatting helpers (utils.py and f-string formats)

Python formats these values as floats; every value the repository feeds
them (byte counts below `2^53`, divided by powers of two) is exactly
representable, so the rational/`Nat` computations below agree with the
float ones. -/

/-- Round `num / den` to the nearest integer, ties to even (the rounding
used by `format` on floats). `den` is always positive here. -/
def roundHalfEven (num den : Nat) : Nat :=
  let fl := num / den
  let rem := num % den
  if 2 * rem > den then fl + 1
  else if 2 * rem < den then fl
  else if fl % 2 = 0 then fl else fl + 1

/-- Python `f"{num/den:.Nf}"` for nonnegative exact values: fixed-point
with `decimals` digits. -/
def fmtFixed (decimals num den : Nat) : String :=
  let scaled := roundHalfEven (num * 10 ^ decimals) den
  let ipart := scaled / 10 ^ decimals
  let fpart := scaled % 10 ^ decimals
  let fpStr := toString fpart
  toString ipart ++ "." ++ String.mk (List.replicate (decimals - fpStr.length) '0') ++ fpStr

/-- 2^30 bytes; `free_mem / (1024**3)`. -/
def GiB : Nat := 1073741824

/-- The unit loop of `utils.format_size`: `den` is the divisor accumulated
by the repeated `size_bytes /= 1024.0`. -/
def formatSizeLoop (bytes : Nat) : Nat → List String → String
  | den, [] => fmtFixed 2 bytes den ++ " PB"
  | den, u :: rest =>
    if bytes < 1024 * den then fmtFixed 2 bytes den ++ " " ++ u
    else formatSizeLoop bytes (den * 1024) rest

/-- `utils.format_size`: format bytes as a human-readable size. -/
def format_size (size_bytes : Nat) : String :=
  formatSizeLoop size_bytes 1 ["B", "KB", "MB", "GB", "TB"]

/-- `\d+\.\d+` matched at the start of `l` (maximal-munch digits, a dot,
digits), as used by `re.search(r"CUDA Version: (\d+\.\d+)", output)`. -/
def matchCudaAt (l : List Char) : Option String :=
  let d1 := l.takeWhile Char.isDigit
  if d1 = [] then none
  else
    match l.drop d1.length with
    | '.' :: rest2 =>
      let d2 := rest2.takeWhile Char.isDigit
      if d2 = [] then none else some ⟨d1 ++ '.' :: d2⟩
    | _ => none

/-- `re.search(r"CUDA Version: (\d+\.\d+)", ·)`: try the pattern at each
position left to right and return the first captured group. -/
def searchCudaVersion : List Char → Option String
  | [] => none
  | c :: rest =>
    if "CUDA Version: ".data.isPrefixOf (c :: rest) then
      match matchCudaAt ((c :: rest).drop 14) with
      | some v => some v
      | none => searchCudaVersion rest
    else searchCudaVersion rest

/-- Value of a nonempty all-digit character list. -/
def digitsVal (l : List Char) : Nat :=
  l.foldl (fun acc c => acc * 10 + (c.toNat - 48)) 0

/-- Digits-only body of Python `int(...)`. -/
def pyIntDigits (ds : List Char) : Option Nat :=
  if ds ≠ [] ∧ ds.all Char.isDigit then some (digitsVal ds) else none

/-- Python `int(s)`: strip whitespace, optional sign, decimal digits;
`none` models the `ValueError`. -/
def pyInt (s : String) : Option Int :=
  match (pyStrip s).data with
  | '+' :: ds => (pyIntDigits ds).map (fun n => (n : Int))
  | '-' :: ds => (pyIntDigits ds).map (fun n => -(n : Int))
  | ds => (pyIntDigits ds).map (fun n => (n : Int))

/-- `torch_major, torch_minor = map(int, torch_version.split(".")[:2])`:
`none` models the `ValueError` raised on a malformed or dot-free version
(caught by the surrounding `except`). -/
def parseMajorMinor (v : String) : Option (Int × Int) :=
  match v.splitOn "." with
  | a :: b :: _ => do
      let ma ← pyInt a
      let mi ← pyInt b
      pure (ma, mi)
  | _ => none

/-- `str(e)` of the `ValueError` raised while parsing the torch version;
CPython's exact message text is external to the repository and is
summarised, only the `FAIL - ` prefix in front of it matters. -/
def versionValueErrorMsg (v : String) : String :=
  "invalid version string: " ++ v

/-! ## diagnose.py — the seven probe functions

Each probe reads the machine through shell commands or library calls; the
embedding packages exactly what the probe reads into an environment record
(`Except` fields model calls that may raise). -/

/-- `subprocess.CompletedProcess` as observed by the checks. -/
structure CmdResult where
  returncode : Int
  stdout : String
deriving DecidableEq, Repr

/-- What `check_cuda_driver` reads: `check_command_exists("nvidia-smi")`
and the outcome of `run_command(["nvidia-smi"], timeout=10)`. -/
structure CudaDriverEnv where
  smiExists : Bool
  runResult : Except String CmdResult
deriving Repr

/-- `diagnose.check_cuda_driver`. -/
def check_cuda_driver (env : CudaDriverEnv) : List DiagnosticIssue :=
  if !env.smiExists then
    [⟨"NVIDIA GPU Driver", "FAIL - nvidia-smi not found", "critical",
      "Install NVIDIA drivers: https://www.nvidia.com/Download/index.aspx", none⟩]
  else
    match env.runResult with
    | .error e =>
      [⟨"NVIDIA GPU Driver", "FAIL - " ++ e, "critical",
        "Install NVIDIA drivers and reboot", none⟩]
    | .ok result =>
      if result.returncode ≠ 0 then
        [⟨"NVIDIA GPU Driver", "FAIL - nvidia-smi error", "critical",
          "Install/reinstall NVIDIA drivers and reboot", none⟩]
      else
        let cuda_version := (searchCudaVersion result.stdout.data).getD "unknown"
        if pyIn "Driver Version" result.stdout then
          [⟨"NVIDIA GPU Driver", "PASS - CUDA " ++ cuda_version, "info", "",
            some ("CUDA Version: " ++ cuda_version)⟩]
        else
          [⟨"NVIDIA GPU Driver", "FAIL - No GPU detected", "critical",
            "Check GPU installation and drivers", none⟩]

/-- What the body of `check_pytorch_cuda` reads from `torch` when none of
the reads raises. -/
structure TorchOk where
  version : String
  cudaAvailable : Bool
  /-- `torch.version.cuda` (`none` falls back to `"unknown"`). -/
  cudaVersion : Option String
  deviceCount : Nat
  /-- `torch.cuda.get_device_name(0)` (read only when `deviceCount > 0`). -/
  deviceName : String
deriving Repr

/-- What `check_pytorch_cuda` reads: whether the `torch` import succeeded,
and the outcome of the attribute/CUDA reads inside the `try`. -/
structure TorchEnv where
  installed : Bool
  body : Except String TorchOk
deriving Repr

/-- `diagnose.check_pytorch_cuda`.  Note that on a malformed
`torch.__version__` the `PASS` record has already been appended when the
`ValueError` fires, so the `except` branch appends a second, `FAIL`,
record after it. -/
def check_pytorch_cuda (env : TorchEnv) : List DiagnosticIssue :=
  if !env.installed then
    [⟨"PyTorch Installation", "FAIL - Not installed", "critical",
      "pip install torch --index-url https://download.pytorch.org/whl/cu124", none⟩]
  else
    match env.body with
    | .error e =>
      [⟨"PyTorch CUDA", "FAIL - " ++ e, "critical", "Reinstall PyTorch with CUDA support", none⟩]
    | .ok info =>
      if info.cudaAvailable then
        let cuda_version := info.cudaVersion.getD "unknown"
        let device_name := if info.deviceCount > 0 then info.deviceName else "unknown"
        let passIssue : DiagnosticIssue :=
          ⟨"PyTorch CUDA",
           "PASS - CUDA " ++ cuda_version ++ " (" ++ toString info.deviceCount ++ " GPU(s))",
           "info", "",
           some ("PyTorch " ++ info.version ++ ", Device: " ++ device_name)⟩
        match parseMajorMinor info.version with
        | none =>
          [passIssue,
           ⟨"PyTorch CUDA", "FAIL - " ++ versionValueErrorMsg info.version, "critical",
            "Reinstall PyTorch with CUDA support", none⟩]
        | some (torch_major, torch_minor) =>
          if torch_major < 2 ∨ (torch_major = 2 ∧ torch_minor < 4) then
            [passIssue,
             ⟨"PyTorch Version", "WARN - Old version", "warning",
              "Upgrade: pip install torch>=2.4.0 --index-url https://download.pytorch.org/whl/cu124",
              some ("Current: " ++ info.version ++ ", Recommended: >=2.4.0")⟩]
          else
            [passIssue]
      else
        [⟨"PyTorch CUDA", "FAIL - CUDA not available", "critical",
          "pip install torch --index-url https://download.pytorch.org/whl/cu124",
          some ("PyTorch " ++ info.version ++ " installed but CUDA not available")⟩]

/-- What `check_ml_libraries` observes for one library. -/
structure LibEnv where
  importable : Bool
  /-- the `__version__` attribute (`none` falls back to `"unknown"`). -/
  version : Option String
  /-- outcome of `packaging.version.parse(version) < parse(min_version)`:
  `none` models the `except (ImportError, Exception)` branch (packaging
  missing or a parse error), `some b` the comparison.  PEP 440 comparison
  is an external library call, treated as an oracle. -/
  pkgOlder : Option Bool
deriving Repr

/-- The `required_libs` table of `check_ml_libraries`. -/
def required_libs : List (String × String) :=
  [("transformers", ">=4.44.0"), ("peft", ">=0.12.0"), ("trl", ">=0.9.0"),
   ("datasets", ">=2.20.0"), ("accelerate", ">=1.0.0")]

/-- One iteration of the library loop of `check_ml_libraries`. -/
def checkOneLib (envs : String → LibEnv) (lib : String × String) : List DiagnosticIssue :=
  let lib_name := lib.1
  let version_req := lib.2
  let env := envs lib_name
  if !env.importable then
    [⟨lib_name, "FAIL - Not installed", "critical",
      "pip install " ++ lib_name ++ version_req, none⟩]
  else
    let version := env.version.getD "unknown"
    if version ≠ "unknown" then
      match env.pkgOlder with
      | some true =>
        [⟨lib_name, "WARN - Old version (" ++ version ++ ")", "warning",
          "pip install " ++ lib_name ++ version_req,
          some ("Current: " ++ version ++ ", Required: " ++ version_req)⟩]
      | some false =>
        [⟨lib_name, "PASS - " ++ version, "info", "", none⟩]
      | none =>
        [⟨lib_name, "PASS - Installed", "info", "", some ("Version: " ++ version)⟩]
    else
      [⟨lib_name, "PASS - Installed", "info", "", none⟩]

/-- `diagnose.check_ml_libraries`. -/
def check_ml_libraries (envs : String → LibEnv) : List DiagnosticIssue :=
  (required_libs.map (checkOneLib envs)).flatten

/-- What `check_gpu_memory` reads: whether torch+CUDA are usable and the
outcome of `torch.cuda.mem_get_info(0)` (free, total). -/
structure GpuMemEnv where
  available : Bool
  memInfo : Except String (Nat × Nat)
deriving Repr

/-- `diagnose.check_gpu_memory`. -/
def check_gpu_memory (env : GpuMemEnv) : List DiagnosticIssue :=
  if !env.available then []
  else
    match env.memInfo with
    | .error e => [⟨"GPU Memory", "FAIL - " ++ e, "warning", "Check GPU access", none⟩]
    | .ok (free_mem, total_mem) =>
      if free_mem < 8 * GiB then
        [⟨"GPU Memory", "WARN - Low memory (" ++ fmtFixed 1 free_mem GiB ++ "GB free)", "warning",
          "Close other processes or use smaller models",
          some ("Free: " ++ fmtFixed 1 free_mem GiB ++ "GB / Total: " ++
                fmtFixed 1 total_mem GiB ++ "GB")⟩]
      else
        [⟨"GPU Memory", "PASS - " ++ fmtFixed 1 free_mem GiB ++ "GB free", "info", "",
          some ("Free: " ++ fmtFixed 1 free_mem GiB ++ "GB / Total: " ++
                fmtFixed 1 total_mem GiB ++ "GB")⟩]

/-- What the `try` of `check_disk_space` observes when nothing raises. -/
structure DiskOk where
  cacheExists : Bool
  freeBytes : Nat
deriving Repr

/-- What `check_disk_space` reads (the whole body may raise). -/
structure DiskEnv where
  body : Except String DiskOk
deriving Repr

/-- `diagnose.check_disk_space`. -/
def check_disk_space (env : DiskEnv) : List DiagnosticIssue :=
  match env.body with
  | .error e => [⟨"Disk Space", "WARN - " ++ e, "warning", "Check disk space manually", none⟩]
  | .ok d =>
    if d.cacheExists then
      if d.freeBytes < 50 * GiB then
        [⟨"Disk Space", "WARN - Low space (" ++ fmtFixed 1 d.freeBytes GiB ++ "GB free)",
          "warning", "Free up disk space (HF cache needs ~50GB)",
          some ("Free: " ++ format_size d.freeBytes)⟩]
      else
        [⟨"Disk Space", "PASS - " ++ fmtFixed 1 d.freeBytes GiB ++ "GB free", "info", "",
          some ("Free: " ++ format_size d.freeBytes)⟩]
    else
      [⟨"Disk Space", "INFO - Cache dir not found", "info", "", none⟩]

/-- What `check_docker_gpu` reads: `check_command_exists("docker")` and the
outcome of the `docker run --gpus all` probe. -/
structure DockerEnv where
  dockerExists : Bool
  runResult : Except String CmdResult
deriving Repr

/-- `diagnose.check_docker_gpu`. -/
def check_docker_gpu (env : DockerEnv) : List DiagnosticIssue :=
  if !env.dockerExists then
    [⟨"Docker GPU Support", "INFO - Docker not installed", "info",
      "Install Docker for GPU containerization", none⟩]
  else
    match env.runResult with
    | .error _ =>
      [⟨"Docker GPU Support", "INFO - Docker GPU test skipped", "info",
        "Test manually: docker run --rm --gpus all nvidia/cuda:12.4.0-base-ubuntu22.04 nvidia-smi",
        none⟩]
    | .ok result =>
      if result.returncode = 0 then
        [⟨"Docker GPU Support", "PASS - nvidia-docker working", "info", "", none⟩]
      else
        [⟨"Docker GPU Support", "FAIL - GPU not accessible in Docker", "warning",
          "Install nvidia-container-toolkit: https://docs.nvidia.com/datacenter/cloud-native/container-toolkit/install-guide.html",
          none⟩]

/-- `str(e)` of a `DiagnosticError(message, suggestion)` per
`MLEnvDoctorError.__str__`. -/
def diagnosticErrorStr (message suggestion : String) : String :=
  message ++ "\n💡 Suggestion: " ++ suggestion

/-- `diagnose.check_internet_connectivity`: runs the `retry_network`-wrapped
`_check_connectivity` (whose attempts are the environment) and reports
`PASS` on success, `WARN` with `str(e)` in the details otherwise. -/
def check_internet_connectivity (netOutcomes : Nat → AttemptOutcome String Unit) :
    List DiagnosticIssue :=
  match (retry_network netOutcomes).result with
  | .success _ =>
    [⟨"Internet Connectivity", "PASS - HF Hub accessible", "info", "", none⟩]
  | .diagnosticError lastE =>
    [⟨"Internet Connectivity", "WARN - Cannot reach HF Hub", "warning",
      "Check internet connection and firewall settings",
      some (diagnosticErrorStr "_check_connectivity failed after 3 attempts"
              ("Last error: " ++ lastE))⟩]
  | .runtimeError =>
    [⟨"Internet Connectivity", "WARN - Cannot reach HF Hub", "warning",
      "Check internet connection and firewall settings",
      some "Retry logic failed unexpectedly"⟩]
  | .propagated e =>
    [⟨"Internet Connectivity", "WARN - Cannot reach HF Hub", "warning",
      "Check internet connection and firewall settings", some e⟩]

/-! ## diagnose.py — diagnose_env

`diagnose_env` calls the checks through `run_parallel_with_results` (or a
sequential fallback); each check call's outcome — its issue list, or an
escaping exception — is the environment here, together with the
scheduler's completion orders. -/

/-- `replaceAux o os new l`: Python `str.replace` scanning `l` left to
right for the (nonempty) pattern `o :: os`. -/
def replaceAux (o : Char) (os new : List Char) : List Char → List Char
  | [] => []
  | c :: rest =>
    if (o :: os).isPrefixOf (c :: rest) then new ++ replaceAux o os new (rest.drop os.length)
    else c :: replaceAux o os new rest
termination_by l => l.length
decreasing_by
  · simp only [List.length_cons]
    have := List.length_drop os.length rest
    omega
  · simp

/-- Python `s.replace(old, new)` (the repository never calls it with an
empty pattern). -/
def pyReplace (s old new : String) : String :=
  match old.data with
  | [] => s
  | o :: os => ⟨replaceAux o os new.data s.data⟩

/-- Uppercase one ASCII character. -/
def pyUpperChar (c : Char) : Char :=
  if 97 ≤ c.toNat && c.toNat ≤ 122 then Char.ofNat (c.toNat - 32) else c

/-- Python `s.upper()` (characterwise, ASCII). -/
def pyUpper (s : String) : String :=
  ⟨s.data.map pyUpperChar⟩

/-- Whether a character is an ASCII letter (the only cased characters in
the strings `str.title` is applied to here). -/
def isAsciiAlpha (c : Char) : Bool :=
  (97 ≤ c.toNat && c.toNat ≤ 122) || (65 ≤ c.toNat && c.toNat ≤ 90)

/-- The scan of Python `str.title`: uppercase a letter that follows a
non-letter, lowercase a letter that follows a letter. -/
def pyTitleAux : Bool → List Char → List Char
  | _, [] => []
  | prevAlpha, c :: rest =>
    let cased := if isAsciiAlpha c then
        (if prevAlpha then pyLowerChar c else pyUpperChar c)
      else c
    cased :: pyTitleAux (isAsciiAlpha c) rest

/-- Python `s.title()` (ASCII). -/
def pyTitle (s : String) : String :=
  ⟨pyTitleAux false s.data⟩

/-- `check_func.__name__.replace("check_", "").replace("_", " ").title()`. -/
def checkDisplayName (funcName : String) : String :=
  pyTitle (pyReplace (pyReplace funcName "check_" "") "_" " ")

/-- The synthetic record `diagnose_env` appends when a core check raises. -/
def checkErrorIssue (funcName : String) (e : String) : DiagnosticIssue :=
  ⟨checkDisplayName funcName, "FAIL - Check error", "critical",
   "Run diagnostics again or check logs", some e⟩

/-- How `diagnose_env` folds one check outcome into `all_issues`: extend
with the returned records, or — for an exception — append the synthetic
failure record (core checks) or drop it after logging (extended checks,
`appendOnError = false`). -/
def handleOutcome (appendOnError : Bool) (funcName : String)
    (outcome : Except String (List DiagnosticIssue)) : List DiagnosticIssue :=
  match outcome with
  | .ok issues => issues
  | .error e => if appendOnError then [checkErrorIssue funcName e] else []

/-- The `core_checks` list with each check's call outcome. -/
def coreItems (coreOut : Fin 3 → Except String (List DiagnosticIssue)) :
    List (String × Except String (List DiagnosticIssue)) :=
  [("check_cuda_driver", coreOut 0), ("check_pytorch_cuda", coreOut 1),
   ("check_ml_libraries", coreOut 2)]

/-- The `extended_checks` list with each check's call outcome. -/
def extItems (extOut : Fin 4 → Except String (List DiagnosticIssue)) :
    List (String × Except String (List DiagnosticIssue)) :=
  [("check_gpu_memory", extOut 0), ("check_disk_space", extOut 1),
   ("check_docker_gpu", extOut 2), ("check_internet_connectivity", extOut 3)]

/-- `diagnose.diagnose_env`, as a function of the seven check-call
outcomes and (for the parallel path) the two completion orders.  Core
check exceptions become synthetic `FAIL - Check error` records; extended
check exceptions are logged and dropped. -/
def diagnose_env (full parallel : Bool)
    (coreOut : Fin 3 → Except String (List DiagnosticIssue))
    (extOut : Fin 4 → Except String (List DiagnosticIssue))
    (orderCore : List (Fin 3)) (orderExt : List (Fin 4)) : List DiagnosticIssue :=
  let coreIssues :=
    if parallel then
      ((run_parallel_with_results (fun it => it.2) (coreItems coreOut) orderCore).map
        (fun p => handleOutcome true p.1.1 p.2)).flatten
    else
      ((coreItems coreOut).map (fun it => handleOutcome true it.1 it.2)).flatten
  let extIssues :=
    if full then
      if parallel then
        ((run_parallel_with_results (fun it => it.2) (extItems extOut) orderExt).map
          (fun p => handleOutcome false p.1.1 p.2)).flatten
      else
        ((extItems extOut).map (fun it => handleOutcome false it.1 it.2)).flatten
    else []
  coreIssues ++ extIssues

/-! ## export.py — JSON serialization

`export_json` serializes one fixed document shape —
`{"issues": [<flat string/null objects>], "summary": {<counts>},
"metadata": {<strings>}}` — with
`json.dumps(..., indent=2, ensure_ascii=False)`, so the serializer is
embedded at that shape: items indent by two per level, separators are
`",\n"` and `": "`, an empty array collapses to `[]`. -/

/-- Lowercase hex digit. -/
def hexDigit (n : Nat) : Char :=
  if n < 10 then Char.ofNat (48 + n) else Char.ofNat (87 + n)

/-- Four lowercase hex digits, as in `\u00XX` escapes. -/
def hex4 (n : Nat) : String :=
  ⟨[hexDigit (n / 4096 % 16), hexDigit (n / 256 % 16), hexDigit (n / 16 % 16), hexDigit (n % 16)]⟩

/-- The escaping of Python's JSON encoder with `ensure_ascii=False`:
backslash, double quote, and control characters only. -/
def jsonEscapeChar (c : Char) : String :=
  if c = '"' then "\\\""
  else if c = '\\' then "\\\\"
  else if c = '\n' then "\\n"
  else if c = '\r' then "\\r"
  else if c = '\t' then "\\t"
  else if c = '\x08' then "\\b"
  else if c = '\x0c' then "\\f"
  else if c.toNat < 32 then "\\u" ++ hex4 c.toNat
  else String.singleton c

/-- A JSON string literal. -/
def jsonQuote (s : String) : String :=
  "\"" ++ String.join (s.data.map jsonEscapeChar) ++ "\""

/-- A JSON string-or-null value (`issue_to_dict` maps `details = None` to
JSON `null`). -/
def jsonStrOrNull : Option String → String
  | some s => jsonQuote s
  | none => "null"

/-! ## export.py — the three serializers and the table printer -/

/-- `__init__.__version__`. -/
def mlenvdoctor_version : String := "0.1.2"

/-- `export.issue_to_dict`: the five fields, `details` nullable. -/
def issue_to_dict (issue : DiagnosticIssue) : List (String × Option String) :=
  [("name", some issue.name), ("status", some issue.status),
   ("severity", some issue.severity), ("fix", some issue.fix),
   ("details", issue.details)]

/-- `export_json`'s `critical_count`. -/
def jsonCriticalCount (issues : List DiagnosticIssue) : Nat :=
  (issues.filter (fun i => i.severity = "critical" && pyIn "FAIL" i.status)).length

/-- `export_json`'s `warning_count`. -/
def jsonWarningCount (issues : List DiagnosticIssue) : Nat :=
  (issues.filter (fun i => i.severity = "warning" && (pyIn "WARN" i.status || pyIn "FAIL" i.status))).length

/-- `export_json`'s `pass_count`. -/
def jsonPassCount (issues : List DiagnosticIssue) : Nat :=
  (issues.filter (fun i => pyIn "PASS" i.status)).length

/-- `export_html`'s `critical_count`. -/
def htmlCriticalCount (issues : List DiagnosticIssue) : Nat :=
  (issues.filter (fun i => i.severity = "critical" && pyIn "FAIL" i.status)).length

/-- `export_html`'s `warning_count`. -/
def htmlWarningCount (issues : List DiagnosticIssue) : Nat :=
  (issues.filter (fun i => i.severity = "warning" && (pyIn "WARN" i.status || pyIn "FAIL" i.status))).length

/-- `export_html`'s `pass_count`. -/
def htmlPassCount (issues : List DiagnosticIssue) : Nat :=
  (issues.filter (fun i => pyIn "PASS" i.status)).length

/-- `print_diagnostic_table`'s `critical_count`. -/
def tableCriticalCount (issues : List DiagnosticIssue) : Nat :=
  (issues.filter (fun i => i.severity = "critical" && pyIn "FAIL" i.status)).length

/-- `print_diagnostic_table`'s `warning_count`. -/
def tableWarningCount (issues : List DiagnosticIssue) : Nat :=
  (issues.filter (fun i => i.severity = "warning" && (pyIn "WARN" i.status || pyIn "FAIL" i.status))).length

/-- `print_diagnostic_table`'s `pass_count`. -/
def tablePassCount (issues : List DiagnosticIssue) : Nat :=
  (issues.filter (fun i => pyIn "PASS" i.status)).length

/-- The `summary` dictionary of `export_json`. -/
def jsonSummary (issues : List DiagnosticIssue) : List (String × Nat) :=
  [("total", issues.length), ("passed", jsonPassCount issues),
   ("warnings", jsonWarningCount issues), ("critical", jsonCriticalCount issues)]

/-- The `metadata` dictionary of `export_json`; `timestamp` is the
`datetime.now().isoformat()` of the invocation. -/
def jsonMetadata (timestamp : String) : List (String × String) :=
  [("version", mlenvdoctor_version), ("timestamp", timestamp), ("tool", "mlenvdoctor")]

/-- One element of the `issues` array (depth 2: object braces at indent 4,
fields at indent 6). -/
def renderIssueObj (issue : DiagnosticIssue) : String :=
  "    \x7b\n" ++
  String.intercalate ",\n"
    ((issue_to_dict issue).map (fun kv => "      " ++ jsonQuote kv.1 ++ ": " ++ jsonStrOrNull kv.2)) ++
  "\n    \x7d"

/-- The `issues` array (depth 1: items at indent 4, closing bracket at
indent 2; empty array collapses). -/
def renderIssuesArr (issues : List DiagnosticIssue) : String :=
  if issues.isEmpty then "[]"
  else "[\n" ++ String.intercalate ",\n" (issues.map renderIssueObj) ++ "\n  ]"

/-- The `summary` object (depth 1). -/
def renderSummaryObj (issues : List DiagnosticIssue) : String :=
  "\x7b\n" ++
  String.intercalate ",\n"
    ((jsonSummary issues).map (fun kv => "    " ++ jsonQuote kv.1 ++ ": " ++ toString kv.2)) ++
  "\n  \x7d"

/-- The `metadata` object (depth 1). -/
def renderMetadataObj (timestamp : String) : String :=
  "\x7b\n" ++
  String.intercalate ",\n"
    ((jsonMetadata timestamp).map (fun kv => "    " ++ jsonQuote kv.1 ++ ": " ++ jsonQuote kv.2)) ++
  "\n  \x7d"

/-- The text `export_json` writes:
`json.dumps(export_data, indent=2, ensure_ascii=False)`. -/
def renderJson (issues : List DiagnosticIssue) (includeMetadata : Bool)
    (timestamp : String) : String :=
  "\x7b\n  \"issues\": " ++ renderIssuesArr issues ++
  ",\n  \"summary\": " ++ renderSummaryObj issues ++
  (if includeMetadata then ",\n  \"metadata\": " ++ renderMetadataObj timestamp else "") ++
  "\n\x7d"

/-- `csv.writer` quoting (QUOTE_MINIMAL, `"` doubled). -/
def csvQuoteField (s : String) : String :=
  "\"" ++ ⟨s.data.foldr (fun c acc => if c = '"' then '"' :: '"' :: acc else c :: acc) []⟩ ++ "\""

/-- One CSV field: quoted only when it contains the delimiter, the quote
character, or a line-terminator character. -/
def csvField (s : String) : String :=
  if pyIn "," s || pyIn "\"" s || pyIn "\r" s || pyIn "\n" s then csvQuoteField s else s

/-- One `writer.writerow` line (default dialect terminates with CRLF). -/
def csvRow (fields : List String) : String :=
  String.intercalate "," (fields.map csvField) ++ "\r\n"

/-- The text `export_csv` writes. -/
def renderCsv (issues : List DiagnosticIssue) : String :=
  csvRow ["Issue", "Status", "Severity", "Fix", "Details"] ++
  String.join (issues.map (fun i => csvRow [i.name, i.status, i.severity, i.fix, i.details.getD ""]))

/-- Python `x or default` for strings (empty string is falsy). -/
def pyOrDefault (s default : String) : String :=
  if s = "" then default else s

/-- The fixed lines of `export_html`'s template up to `<tbody>`, with the
summary values interpolated (`\x7b`/`\x7d` denote literal braces). -/
def htmlHeadLines (totalS passS warnS critS timestamp version : String) : List String :=
  ["<!DOCTYPE html>",
   "<html lang=\"en\">",
   "<head>",
   "    <meta charset=\"UTF-8\">",
   "    <meta name=\"viewport\" content=\"width=device-width, initial-scale=1.0\">",
   "    <title>ML Environment Doctor - Diagnostic Report</title>",
   "    <style>",
   "        body \x7b",
   "            font-family: -apple-system, BlinkMacSystemFont, \x27Segoe UI\x27, Roboto, Oxygen, Ubuntu, Cantarell, sans-serif;",
   "            max-width: 1200px;",
   "            margin: 0 auto;",
   "            padding: 20px;",
   "            background-color: #f5f5f5;",
   "        \x7d",
   "        .header \x7b",
   "            background: linear-gradient(135deg, #667eea 0%, #764ba2 100%);",
   "            color: white;",
   "            padding: 30px;",
   "            border-radius: 10px;",
   "            margin-bottom: 20px;",
   "        \x7d",
   "        .summary \x7b",
   "            display: grid;",
   "            grid-template-columns: repeat(auto-fit, minmax(200px, 1fr));",
   "            gap: 15px;",
   "            margin-bottom: 30px;",
   "        \x7d",
   "        .summary-card \x7b",
   "            background: white;",
   "            padding: 20px;",
   "            border-radius: 8px;",
   "            box-shadow: 0 2px 4px rgba(0,0,0,0.1);",
   "        \x7d",
   "        .summary-card h3 \x7b",
   "            margin: 0 0 10px 0;",
   "            font-size: 14px;",
   "            color: #666;",
   "        \x7d",
   "        .summary-card .value \x7b",
   "            font-size: 32px;",
   "            font-weight: bold;",
   "        \x7d",
   "        .passed \x7b color: #10b981; \x7d",
   "        .warning \x7b color: #f59e0b; \x7d",
   "        .critical \x7b color: #ef4444; \x7d",
   "        table \x7b",
   "            width: 100%;",
   "            background: white;",
   "            border-collapse: collapse;",
   "            border-radius: 8px;",
   "            overflow: hidden;",
   "            box-shadow: 0 2px 4px rgba(0,0,0,0.1);",
   "        \x7d",
   "        th \x7b",
   "            background-color: #667eea;",
   "            color: white;",
   "            padding: 15px;",
   "            text-align: left;",
   "            font-weight: 600;",
   "        \x7d",
   "        td \x7b",
   "            padding: 12px 15px;",
   "            border-bottom: 1px solid #e5e7eb;",
   "        \x7d",
   "        tr:hover \x7b",
   "            background-color: #f9fafb;",
   "        \x7d",
   "        .status-pass \x7b color: #10b981; font-weight: 600; \x7d",
   "        .status-fail \x7b color: #ef4444; font-weight: 600; \x7d",
   "        .status-warn \x7b color: #f59e0b; font-weight: 600; \x7d",
   "        .severity-critical \x7b background-color: #fee2e2; \x7d",
   "        .severity-warning \x7b background-color: #fef3c7; \x7d",
   "        .severity-info \x7b background-color: #dbeafe; \x7d",
   "        .footer \x7b",
   "            margin-top: 30px;",
   "            text-align: center;",
   "            color: #666;",
   "            font-size: 12px;",
   "        \x7d",
   "    </style>",
   "</head>",
   "<body>",
   "    <div class=\"header\">",
   "        <h1>ML Environment Doctor</h1>",
   "        <p>Diagnostic Report - Generated on " ++ timestamp ++ "</p>",
   "        <p style=\"font-size: 14px; opacity: 0.9;\">Version " ++ version ++ "</p>",
   "    </div>",
   "",
   "    <div class=\"summary\">",
   "        <div class=\"summary-card\">",
   "            <h3>Total Checks</h3>",
   "            <div class=\"value\">" ++ totalS ++ "</div>",
   "        </div>",
   "        <div class=\"summary-card\">",
   "            <h3>Passed</h3>",
   "            <div class=\"value passed\">" ++ passS ++ "</div>",
   "        </div>",
   "        <div class=\"summary-card\">",
   "            <h3>Warnings</h3>",
   "            <div class=\"value warning\">" ++ warnS ++ "</div>",
   "        </div>",
   "        <div class=\"summary-card\">",
   "            <h3>Critical Issues</h3>",
   "            <div class=\"value critical\">" ++ critS ++ "</div>",
   "        </div>",
   "    </div>",
   "",
   "    <table>",
   "        <thead>",
   "            <tr>",
   "                <th>Issue</th>",
   "                <th>Status</th>",
   "                <th>Severity</th>",
   "                <th>Fix</th>",
   "                <th>Details</th>",
   "            </tr>",
   "        </thead>",
   "        <tbody>"]

/-- One `<tr>` fragment of `export_html`'s row loop. -/
def renderHtmlRow (issue : DiagnosticIssue) : String :=
  let status_class :=
    if pyIn "FAIL" issue.status then "status-fail"
    else if pyIn "WARN" issue.status then "status-warn"
    else "status-pass"
  let severity_class := "severity-" ++ issue.severity
  "\n            <tr class=\"" ++ severity_class ++ "\">\n" ++
  "                <td><strong>" ++ issue.name ++ "</strong></td>\n" ++
  "                <td class=\"" ++ status_class ++ "\">" ++ issue.status ++ "</td>\n" ++
  "                <td>" ++ pyUpper issue.severity ++ "</td>\n" ++
  "                <td>" ++ pyOrDefault issue.fix "-" ++ "</td>\n" ++
  "                <td>" ++ pyOrDefault (issue.details.getD "") "-" ++ "</td>\n" ++
  "            </tr>\n"

/-- The fixed tail of `export_html`'s template. -/
def htmlTail : String :=
  "\n        </tbody>\n    </table>\n\n    <div class=\"footer\">\n" ++
  "        <p>Generated by ML Environment Doctor | <a href=\"https://github.com/dheena731/ml_env_doctor\">GitHub</a></p>\n" ++
  "    </div>\n</body>\n</html>\n"

/-- The text `export_html` writes; `timestamp` is the
`datetime.now().strftime(...)` of the invocation. -/
def renderHtml (issues : List DiagnosticIssue) (timestamp : String) : String :=
  String.intercalate "\n"
    (htmlHeadLines (toString issues.length) (toString (htmlPassCount issues))
      (toString (htmlWarningCount issues)) (toString (htmlCriticalCount issues))
      timestamp mlenvdoctor_version) ++ "\n" ++
  String.join (issues.map renderHtmlRow) ++
  htmlTail

/-! ## The in-memory state of one CLI invocation

Records are held in a flat list; exports write rendered text to a file.
The state-passing embedding makes the frame claims provable: a state
component an operation never writes stays equal. -/

/-- The state an export operates on: the result list and the files written
so far. -/
structure AppState where
  issues : List DiagnosticIssue
  files : List (String × String)
deriving Repr

/-- `export.export_json`: render and write; returns the written path. -/
def export_json (st : AppState) (output_file : Option String) (include_metadata : Bool)
    (timestamp : String) : AppState × String :=
  let path := output_file.getD "diagnostic-results.json"
  ({ st with files := st.files ++ [(path, renderJson st.issues include_metadata timestamp)] }, path)

/-- `export.export_csv`. -/
def export_csv (st : AppState) (output_file : Option String) : AppState × String :=
  let path := output_file.getD "diagnostic-results.csv"
  ({ st with files := st.files ++ [(path, renderCsv st.issues)] }, path)

/-- `export.export_html`. -/
def export_html (st : AppState) (output_file : Option String) (timestamp : String) :
    AppState × String :=
  let path := output_file.getD "diagnostic-results.html"
  ({ st with files := st.files ++ [(path, renderHtml st.issues timestamp)] }, path)

/-- `icons.get_icon`: emoji when the console supports them, ASCII
fallback otherwise. -/
def get_icon (useEmojis : Bool) (iconName : String) : String :=
  if useEmojis then
    match iconName with
    | "search" => "🔍" | "check" => "✅" | "cross" => "❌" | "warning" => "⚠️"
    | "info" => "ℹ️" | "wrench" => "🔧" | "whale" => "🐳" | "test" => "🧪"
    | _ => ""
  else
    match iconName with
    | "search" => "[*]" | "check" => "[OK]" | "cross" => "[X]" | "warning" => "[!]"
    | "info" => "[i]" | "wrench" => "[FIX]" | "whale" => "[DOCKER]" | "test" => "[TEST]"
    | _ => ""

/-- `DiagnosticIssue.to_row`: the four table cells of one record. -/
def to_row (useEmojis : Bool) (issue : DiagnosticIssue) : String × String × String × String :=
  let token := firstToken issue.status
  let status_icon :=
    if token = "PASS" then get_icon useEmojis "check"
    else if token = "FAIL" then get_icon useEmojis "cross"
    else if token = "WARN" then get_icon useEmojis "warning"
    else if token = "INFO" then get_icon useEmojis "info"
    else "?"
  (issue.name, status_icon ++ " " ++ issue.status, pyUpper issue.severity, issue.fix)

/-- `diagnose.print_diagnostic_table`: renders every record as a table row
and prints the three summary counts; the Rich layout engine is external,
so the console output is modelled as the row tuples plus the counts
(passed, warnings, critical).  The state is read, never written. -/
def print_diagnostic_table (st : AppState) (useEmojis : Bool) :
    AppState × (List (String × String × String × String) × Nat × Nat × Nat) :=
  (st, (st.issues.map (to_row useEmojis),
        tablePassCount st.issues, tableWarningCount st.issues, tableCriticalCount st.issues))

/-! ## The record invariant stated by the spec -/

/-- The severity enumeration of the spec: `critical`, `warning`, `info`. -/
def validSeverity (s : String) : Bool :=
  s = "critical" || s = "warning" || s = "info"

/-- The status invariant of the spec: the first whitespace-separated token
of the status string is one of `PASS`, `FAIL`, `WARN`, `INFO`. -/
def validStatusToken (s : String) : Bool :=
  firstToken s = "PASS" || firstToken s = "FAIL" ||
  firstToken s = "WARN" || firstToken s = "INFO"

end MlEnvDoctor

namespace MlEnvDoctor

/-! # Theorems -/

/-- Mapping a function of the list entries over `finRange` is mapping it
over the list. -/
theorem map_finRange_get {α γ : Type} (l : List α) (g : α → γ) :
    (List.finRange l.length).map (fun i => g (l.get i)) = l.map g := by
  conv_rhs => rw [← List.finRange_map_get l]
  rw [List.map_map]
  rfl

/-! ## Character-level facts -/

/-- `Char.ofNat` of a valid code point reads back. -/
theorem toNat_ofNat_valid (n : Nat) (h : n.isValidChar) : (Char.ofNat n).toNat = n := by
  unfold Char.ofNat
  rw [dif_pos h]
  rfl

/-- Lowercasing an uppercase ASCII letter adds 32 to the code point. -/
theorem pyLowerChar_toNat_of (c : Char) (h : 65 ≤ c.toNat ∧ c.toNat ≤ 90) :
    (pyLowerChar c).toNat = c.toNat + 32 := by
  unfold pyLowerChar
  rw [if_pos (by simp [h.1, h.2])]
  exact toNat_ofNat_valid _ (Or.inl (by omega))

/-- Lowercasing fixes every character that is not an uppercase ASCII
letter. -/
theorem pyLowerChar_eq_of (c : Char) (h : ¬(65 ≤ c.toNat ∧ c.toNat ≤ 90)) :
    pyLowerChar c = c := by
  unfold pyLowerChar
  rw [if_neg]
  simpa using h

/-- Lowercasing maps the model-name class into the lowercase class. -/
theorem modelNameClass_lower (c : Char) (h : modelNameClass c = true) :
    lowerNameClass (pyLowerChar c) = true := by
  simp only [modelNameClass, Bool.or_eq_true, Bool.and_eq_true, decide_eq_true_eq] at h
  by_cases hc : 65 ≤ c.toNat ∧ c.toNat ≤ 90
  · have ht := pyLowerChar_toNat_of c hc
    simp only [lowerNameClass, Bool.or_eq_true, Bool.and_eq_true, decide_eq_true_eq, ht]
    omega
  · rw [pyLowerChar_eq_of c hc]
    simp only [lowerNameClass, Bool.or_eq_true, Bool.and_eq_true, decide_eq_true_eq]
    omega

/-- The lowercase class is inside the model-name class. -/
theorem lowerNameClass_model (c : Char) (h : lowerNameClass c = true) :
    modelNameClass c = true := by
  simp only [lowerNameClass, Bool.or_eq_true, Bool.and_eq_true, decide_eq_true_eq] at h
  simp only [modelNameClass, Bool.or_eq_true, Bool.and_eq_true, decide_eq_true_eq]
  omega

/-- Lowercase-class characters are fixed by lowercasing. -/
theorem lowerNameClass_fixed (c : Char) (h : lowerNameClass c = true) :
    pyLowerChar c = c := by
  apply pyLowerChar_eq_of
  simp only [lowerNameClass, Bool.or_eq_true, Bool.and_eq_true, decide_eq_true_eq] at h
  omega

/-- Lowercase-class characters are not whitespace. -/
theorem lowerNameClass_not_space (c : Char) (h : lowerNameClass c = true) :
    pyIsSpace c = false := by
  simp only [lowerNameClass, Bool.or_eq_true, Bool.and_eq_true, decide_eq_true_eq] at h
  simp only [pyIsSpace, Bool.or_eq_false_iff, decide_eq_false_iff_not]
  omega

/-! ## Stripping facts -/

/-- `dropWhile` is the identity on lists with no matching characters. -/
theorem dropWhile_eq_self_of (l : List Char) (h : ∀ c ∈ l, pyIsSpace c = false) :
    l.dropWhile pyIsSpace = l := by
  cases l with
  | nil => rfl
  | cons c t =>
    rw [List.dropWhile_cons]
    simp [h c (by simp)]

/-- Stripping a string with no whitespace is the identity. -/
theorem pyStrip_no_space (l : List Char) (h : ∀ c ∈ l, pyIsSpace c = false) :
    pyStrip ⟨l⟩ = ⟨l⟩ := by
  unfold pyStrip
  rw [dropWhile_eq_self_of l h,
      dropWhile_eq_self_of l.reverse (fun c hc => h c (List.mem_reverse.mp hc)),
      List.reverse_reverse]

/-- A nonempty all-lowercase-class string validates to itself. -/
theorem validate_model_name_fixed (r : String) (hne : r.data ≠ [])
    (hall : ∀ c ∈ r.data, lowerNameClass c = true) :
    validate_model_name r = .ok r := by
  obtain ⟨l⟩ := r
  have hrne : (⟨l⟩ : String) ≠ "" := by
    rw [Ne, String.ext_iff]
    exact hne
  unfold validate_model_name
  rw [if_neg hrne, pyStrip_no_space l (fun c hc => lowerNameClass_not_space c (hall c hc))]
  rw [if_pos ⟨hne, List.all_eq_true.mpr (fun c hc => lowerNameClass_model c (hall c hc))⟩]
  congr 1
  unfold pyLower
  apply String.ext
  show l.map pyLowerChar = l
  calc l.map pyLowerChar = l.map id := List.map_congr_left (fun c hc => lowerNameClass_fixed c (hall c hc))
    _ = l := List.map_id l

/-- C9: every string `s` accepted by `validate_model_name` — non-empty
and, once stripped, matching `^[a-zA-Z0-9._-]+$` — yields the lowercased
stripped string, which matches `^[a-z0-9._-]+$`, and re-validating the
result returns it unchanged (idempotence). -/
theorem validate_model_name_spec (s r : String)
    (h : validate_model_name s = .ok r) :
    r = pyLower (pyStrip s) ∧
    r.data.all lowerNameClass = true ∧
    validate_model_name r = .ok r := by
  unfold validate_model_name at h
  by_cases hs : s = ""
  · rw [if_pos hs] at h
    exact absurd h (by simp)
  · rw [if_neg hs] at h
    by_cases hcond : (pyStrip s).data ≠ [] ∧ (pyStrip s).data.all modelNameClass = true
    · rw [if_pos hcond] at h
      rw [Except.ok.injEq] at h
      subst h
      have hall : (pyLower (pyStrip s)).data.all lowerNameClass = true := by
        unfold pyLower
        show ((pyStrip s).data.map pyLowerChar).all lowerNameClass = true
        rw [List.all_map]
        exact List.all_eq_true.mpr
          (fun c hc => modelNameClass_lower c (List.all_eq_true.mp hcond.2 c hc))
      have hne : (pyLower (pyStrip s)).data ≠ [] := by
        unfold pyLower
        show (pyStrip s).data.map pyLowerChar ≠ []
        simpa using hcond.1
      exact ⟨rfl, hall, validate_model_name_fixed _ hne (List.all_eq_true.mp hall)⟩
    · rw [if_neg hcond] at h
      exact absurd h (by simp)

/-- C9 witness: `validate_model_name` at `"  TinyLlama  "`. -/
theorem validate_model_name_spec_witness :
    "tinyllama" = pyLower (pyStrip "  TinyLlama  ") ∧
    ("tinyllama" : String).data.all lowerNameClass = true ∧
    validate_model_name "tinyllama" = .ok "tinyllama" :=
  validate_model_name_spec "  TinyLlama  " "tinyllama" (by decide)

/-! ## sanitize_command -/

/-- One argument is rejected exactly when `badArg` holds of it. -/
theorem sanitizeArg_error_iff (a : PyArg) :
    (∃ e, sanitizeArg a = .error e) ↔ badArg a = true := by
  cases a with
  | nonStr => simp [sanitizeArg, badArg]
  | str s =>
    cases hf : dangerous_patterns.find? (fun p => pyIn p s) with
    | none =>
      simp only [sanitizeArg, badArg, hf]
      constructor
      · rintro ⟨e, he⟩
        exact absurd he (by simp)
      · intro hany
        obtain ⟨p, hp, hpy⟩ := List.any_eq_true.mp hany
        exact absurd hpy (by simpa using List.find?_eq_none.mp hf p hp)
    | some p =>
      simp only [sanitizeArg, badArg, hf]
      constructor
      · intro _
        have h1 := List.mem_of_find?_eq_some hf
        have h2 := List.find?_some hf
        exact List.any_eq_true.mpr ⟨p, h1, h2⟩
      · intro _
        exact ⟨_, rfl⟩

/-- An accepted argument is returned as the string it is. -/
theorem sanitizeArg_ok (a : PyArg) (s : String) (h : sanitizeArg a = .ok s) :
    a = .str s := by
  cases a with
  | nonStr => simp [sanitizeArg] at h
  | str t =>
    cases hf : dangerous_patterns.find? (fun p => pyIn p t) with
    | none =>
      simp only [sanitizeArg, hf, Except.ok.injEq] at h
      rw [h]
    | some p => simp [sanitizeArg, hf] at h

/-- The argument loop raises exactly when some argument is bad. -/
theorem sanitizeArgs_error_iff (cmd : List PyArg) :
    (∃ e, sanitizeArgs cmd = .error e) ↔ cmd.any badArg = true := by
  induction cmd with
  | nil => simp [sanitizeArgs]
  | cons a rest ih =>
    simp only [List.any_cons, Bool.or_eq_true]
    constructor
    · rintro ⟨e, he⟩
      by_cases hb : badArg a = true
      · exact Or.inl hb
      · right
        apply ih.mp
        cases ha : sanitizeArg a with
        | error e' => exact absurd ((sanitizeArg_error_iff a).mp ⟨e', ha⟩) hb
        | ok s =>
          simp only [sanitizeArgs, ha] at he
          cases hr : sanitizeArgs rest with
          | error e'' => exact ⟨e'', rfl⟩
          | ok t =>
            rw [hr] at he
            exact Except.noConfusion (show Except.ok (s :: t) = Except.error e from he)
    · intro h
      rcases h with hb | hrest
      · obtain ⟨e, he⟩ := (sanitizeArg_error_iff a).mpr hb
        exact ⟨e, by simp only [sanitizeArgs, he]; rfl⟩
      · obtain ⟨e, he⟩ := ih.mpr hrest
        cases ha : sanitizeArg a with
        | error e' => exact ⟨e', by simp only [sanitizeArgs, ha]; rfl⟩
        | ok s => exact ⟨e, by simp only [sanitizeArgs, ha, he]; rfl⟩

/-- The argument loop returns exactly the strings of its input. -/
theorem sanitizeArgs_ok (cmd : List PyArg) (l : List String)
    (h : sanitizeArgs cmd = .ok l) : cmd = l.map PyArg.str := by
  induction cmd generalizing l with
  | nil =>
    simp only [sanitizeArgs, Except.ok.injEq] at h
    rw [← h]
    rfl
  | cons a rest ih =>
    cases ha : sanitizeArg a with
    | error e =>
      simp only [sanitizeArgs, ha] at h
      exact Except.noConfusion
        (show (Except.error e : Except ConfigurationError (List String)) = Except.ok l from h)
    | ok s =>
      cases hr : sanitizeArgs rest with
      | error e =>
        simp only [sanitizeArgs, ha, hr] at h
        exact Except.noConfusion
          (show (Except.error e : Except ConfigurationError (List String)) = Except.ok l from h)
      | ok t =>
        simp only [sanitizeArgs, ha, hr] at h
        have hl : l = s :: t := by
          have : (Except.ok (s :: t) : Except ConfigurationError (List String)) = .ok l := h
          simpa using this.symm
        subst hl
        rw [sanitizeArg_ok a s ha, ih t hr]
        rfl

/-- C8: `sanitize_command` raises `ConfigurationError` exactly when the
command is an empty list, contains a non-string argument, or some argument
contains one of the dangerous substrings `";" "&&" "||" "\x60" "$(" "<"
">" "|"`; every accepted command is returned equal to its input. -/
theorem sanitize_command_spec (cmd : List PyArg) :
    ((∃ e, sanitize_command cmd = .error e) ↔ (cmd = [] ∨ cmd.any badArg = true)) ∧
    (∀ l, sanitize_command cmd = .ok l → cmd = l.map PyArg.str) := by
  constructor
  · by_cases hc : cmd = []
    · subst hc
      simp [sanitize_command]
    · unfold sanitize_command
      rw [if_neg hc]
      simp only [hc, false_or]
      exact sanitizeArgs_error_iff cmd
  · intro l h
    unfold sanitize_command at h
    by_cases hc : cmd = []
    · rw [if_pos hc] at h
      exact absurd h (by simp)
    · rw [if_neg hc] at h
      exact sanitizeArgs_ok cmd l h

/-- C8 witness: a concrete accepted command round-trips. -/
theorem sanitize_command_spec_witness :
    sanitize_command [PyArg.str "nvidia-smi"] = .ok ["nvidia-smi"] ∧
    [PyArg.str "nvidia-smi"] = (["nvidia-smi"].map PyArg.str) :=
  ⟨by decide, (sanitize_command_spec [PyArg.str "nvidia-smi"]).2 ["nvidia-smi"] (by decide)⟩

/-! ## Summary counts and export frame properties -/

/-- C10: the summary computations of `export_json`, `export_html` and
`print_diagnostic_table` agree on every issue list; each counts critical
as severity `"critical"` with `"FAIL"` in the status, warnings as severity
`"warning"` with `"WARN"` or `"FAIL"` in the status, and passed as
`"PASS"` in the status; and the JSON summary's `total` is the length of
the issue list. -/
theorem summary_counts_agree (issues : List DiagnosticIssue) :
    jsonCriticalCount issues =
      (issues.filter (fun i => i.severity = "critical" && pyIn "FAIL" i.status)).length ∧
    jsonWarningCount issues =
      (issues.filter (fun i =>
        i.severity = "warning" && (pyIn "WARN" i.status || pyIn "FAIL" i.status))).length ∧
    jsonPassCount issues = (issues.filter (fun i => pyIn "PASS" i.status)).length ∧
    jsonCriticalCount issues = htmlCriticalCount issues ∧
    jsonWarningCount issues = htmlWarningCount issues ∧
    jsonPassCount issues = htmlPassCount issues ∧
    jsonCriticalCount issues = tableCriticalCount issues ∧
    jsonWarningCount issues = tableWarningCount issues ∧
    jsonPassCount issues = tablePassCount issues ∧
    (jsonSummary issues).lookup "total" = some issues.length :=
  ⟨rfl, rfl, rfl, rfl, rfl, rfl, rfl, rfl, rfl, rfl⟩

/-- C5: `export_json`, `export_csv`, `export_html` and
`print_diagnostic_table` leave the `issues` component of the state — the
list itself, its length and order, and hence every field of every record —
unchanged; they only read it. -/
theorem exports_preserve_issues (st : AppState) (p1 p2 p3 : Option String)
    (includeMetadata : Bool) (t1 t3 : String) (useEmojis : Bool) :
    (export_json st p1 includeMetadata t1).1.issues = st.issues ∧
    (export_csv st p2).1.issues = st.issues ∧
    (export_html st p3 t3).1.issues = st.issues ∧
    (print_diagnostic_table st useEmojis).1.issues = st.issues :=
  ⟨rfl, rfl, rfl, rfl⟩

/-- C6 counterexample: the text `export_json` writes is not a function of
the issue list alone — with `include_metadata=True` (its default) two
invocations on the same (here: empty) issue list at different
`datetime.now()` timestamps write different file contents. -/
theorem export_json_depends_on_time :
    renderJson [] true "2026-01-01T00:00:00" ≠ renderJson [] true "2026-01-02T00:00:00" := by
  decide

/-- C6 amended: `export_csv`'s text is a function of the issue list alone
(its model takes no other input), and so is `export_json`'s with
`include_metadata=False`: the emitted JSON text is then independent of the
invocation time.  (`export_json` with metadata and `export_html`
additionally depend on the invocation timestamp.) -/
theorem export_json_no_metadata_time_independent
    (issues : List DiagnosticIssue) (t t' : String) :
    renderJson issues false t = renderJson issues false t' := rfl

/-! ## parallel.py theorems -/

/-- C1: `run_parallel` evaluated at a failing input.  The `as_completed`
loop appends results in completion order and never reorders them, so when
the second submitted task finishes first (`order = [1, 0]`, a legitimate
completion order, i.e. a permutation of the submissions), mapping the
identity over `[10, 20]` returns `[20, 10]` — not the input order
`[10, 20]` that the claim (and the function's own docstring, "List of
results in the same order as input items") promises. -/
theorem run_parallel_out_of_order :
    ([⟨1, by decide⟩, ⟨0, by decide⟩] : List (Fin ([10, 20] : List Nat).length)).Perm
      (List.finRange ([10, 20] : List Nat).length) ∧
    run_parallel (fun n : Nat => (Except.ok n : Except Unit Nat)) [10, 20]
      [⟨1, by decide⟩, ⟨0, by decide⟩] = .ok [20, 10] ∧
    run_parallel (fun n : Nat => (Except.ok n : Except Unit Nat)) [10, 20]
      [⟨1, by decide⟩, ⟨0, by decide⟩] ≠ .ok [10, 20] :=
  ⟨by decide, by decide, by decide⟩

/-- C2: for every completion order (a permutation of the submitted
futures), `run_parallel_with_results` returns exactly one pair per input
item — `(item, func(item))`, where the `Except` value carries either the
normal result or the raised exception — as a permutation of the input
pairing; no exception is ever re-raised, and no item's pair is lost to
another item's exception. -/
theorem run_parallel_with_results_spec {α β ε : Type} (f : α → Except ε β)
    (items : List α) (order : List (Fin items.length))
    (h : order.Perm (List.finRange items.length)) :
    (run_parallel_with_results f items order).Perm
      (items.map (fun x => (x, f x))) := by
  unfold run_parallel_with_results
  by_cases he : items.isEmpty
  · rw [if_pos he]
    have : items = [] := List.isEmpty_iff.mp he
    subst this
    simp
  · rw [if_neg he]
    have h2 := h.map (fun i => (items.get i, f (items.get i)))
    have h3 : (List.finRange items.length).map (fun i => (items.get i, f (items.get i))) =
        items.map (fun x => (x, f x)) := map_finRange_get items (fun x => (x, f x))
    exact h3 ▸ h2

/-- C2 witness: three items, one raising, collected in the completion
order `[2, 0, 1]`. -/
theorem run_parallel_with_results_spec_witness :
    (([⟨2, by decide⟩, ⟨0, by decide⟩, ⟨1, by decide⟩] :
        List (Fin ([5, 1, 7] : List Nat).length)).Perm
      (List.finRange ([5, 1, 7] : List Nat).length)) ∧
    (run_parallel_with_results
        (fun n : Nat => if n = 1 then (Except.error 99 : Except Nat Nat) else .ok (n + 1))
        [5, 1, 7] [⟨2, by decide⟩, ⟨0, by decide⟩, ⟨1, by decide⟩]).Perm
      (([5, 1, 7] : List Nat).map
        (fun x => (x, if x = 1 then (Except.error 99 : Except Nat Nat) else .ok (x + 1)))) :=
  ⟨by decide,
   run_parallel_with_results_spec
     (fun n : Nat => if n = 1 then (Except.error 99 : Except Nat Nat) else .ok (n + 1))
     [5, 1, 7] [⟨2, by decide⟩, ⟨0, by decide⟩, ⟨1, by decide⟩] (by decide)⟩

/-! ## diagnose_env theorems -/

/-- Collecting check outcomes through the thread pool and folding them
with `handleOutcome` yields, up to the completion-order permutation, the
same records as folding the check list directly. -/
theorem parallel_handle_perm
    (items : List (String × Except String (List DiagnosticIssue))) (b : Bool)
    (ord : List (Fin items.length)) (hperm : ord.Perm (List.finRange items.length))
    (hne : items.isEmpty = false) :
    ((run_parallel_with_results (fun it => it.2) items ord).map
      (fun p => handleOutcome b p.1.1 p.2)).flatten.Perm
      ((items.map (fun it => handleOutcome b it.1 it.2)).flatten) := by
  unfold run_parallel_with_results
  simp only [hne, Bool.false_eq_true, if_false]
  rw [List.map_map]
  have h2 := hperm.map (fun i => handleOutcome b (items.get i).1 (items.get i).2)
  have h3 : (List.finRange items.length).map
      (fun i => handleOutcome b (items.get i).1 (items.get i).2) =
      items.map (fun it => handleOutcome b it.1 it.2) :=
    map_finRange_get items (fun it => handleOutcome b it.1 it.2)
  exact (h3 ▸ h2).flatten

/-- C3: `diagnose_env` never propagates a check's exception (each outcome,
raising or not, is folded by `handleOutcome`: caught, logged, and the
remaining checks still contribute); up to the scheduler's completion
orders its output consists of exactly the records of the three core checks
(a raising core check contributing its synthetic `FAIL - Check error`
record), plus — only when `full = true` — the records of the four extended
checks (a raising extended check contributing nothing). -/
theorem diagnose_env_spec (full parallel : Bool)
    (coreOut : Fin 3 → Except String (List DiagnosticIssue))
    (extOut : Fin 4 → Except String (List DiagnosticIssue))
    (orderCore : List (Fin 3)) (orderExt : List (Fin 4))
    (hc : orderCore.Perm (List.finRange 3)) (he : orderExt.Perm (List.finRange 4)) :
    (diagnose_env full parallel coreOut extOut orderCore orderExt).Perm
      (((coreItems coreOut).map (fun it => handleOutcome true it.1 it.2)).flatten ++
       (if full then
          ((extItems extOut).map (fun it => handleOutcome false it.1 it.2)).flatten
        else [])) := by
  unfold diagnose_env
  cases parallel with
  | false =>
    simp only [Bool.false_eq_true, if_false]
    exact List.Perm.refl _
  | true =>
    simp only [if_true]
    apply List.Perm.append
    · exact parallel_handle_perm (coreItems coreOut) true orderCore hc rfl
    · cases full with
      | false => exact List.Perm.refl _
      | true =>
        simp only [if_true]
        exact parallel_handle_perm (extItems extOut) false orderExt he rfl

/-- C3 witness: full diagnostics, parallel path, one core check and one
extended check raising, concrete completion orders. -/
theorem diagnose_env_spec_witness :
    (([(2 : Fin 3), 0, 1]).Perm (List.finRange 3)) ∧
    (([(3 : Fin 4), 0, 1, 2]).Perm (List.finRange 4)) ∧
    (diagnose_env true true
        (fun i => if i.val = 1 then Except.error "x"
                  else Except.ok [⟨"n", "PASS - ok", "info", "", none⟩])
        (fun i => if i.val = 0 then Except.error "y"
                  else Except.ok [⟨"m", "WARN - w", "warning", "f", none⟩])
        [2, 0, 1] [3, 0, 1, 2]).Perm
      (((coreItems (fun i => if i.val = 1 then Except.error "x"
            else Except.ok [⟨"n", "PASS - ok", "info", "", none⟩])).map
          (fun it => handleOutcome true it.1 it.2)).flatten ++
       (if true then
          ((extItems (fun i => if i.val = 0 then Except.error "y"
              else Except.ok [⟨"m", "WARN - w", "warning", "f", none⟩])).map
            (fun it => handleOutcome false it.1 it.2)).flatten
        else [])) :=
  ⟨by decide, by decide,
   diagnose_env_spec true true _ _ [2, 0, 1] [3, 0, 1, 2] (by decide) (by decide)⟩

/-! ## retry.py theorems -/

/-- The sleep list starts with the current delay and continues with the
backed-off delays. -/
theorem sleeps_shift (cur backoff : ℚ) (m : Nat) :
    cur :: (List.range m).map (fun j => cur * backoff * backoff ^ j) =
      (List.range (m + 1)).map (fun j => cur * backoff ^ j) := by
  rw [List.range_succ_eq_map, List.map_cons, List.map_map]
  refine congrArg₂ _ (by simp) ?_
  apply List.map_congr_left
  intro j _
  show cur * backoff * backoff ^ j = cur * backoff ^ (j + 1)
  rw [pow_succ]
  ring

/-- The retry loop invokes the wrapped function at most `remaining` more
times. -/
theorem retryLoop_calls_le {ε α : Type} (outcomes : Nat → AttemptOutcome ε α) (backoff : ℚ) :
    ∀ (rem attempt : Nat) (cur : ℚ) (lastE : Option ε),
      (retryLoop outcomes backoff attempt rem cur lastE).calls ≤ rem := by
  intro rem
  induction rem with
  | zero =>
    intro attempt cur lastE
    cases lastE <;> simp [retryLoop]
  | succ r ih =>
    intro attempt cur lastE
    cases ho : outcomes attempt with
    | ok v => simp [retryLoop, ho]
    | unlisted e => simp [retryLoop, ho]
    | listed e =>
      by_cases hr : r = 0
      · subst hr
        simp [retryLoop, ho]
      · simp only [retryLoop, ho, if_neg hr]
        exact Nat.succ_le_succ (ih (attempt + 1) (cur * backoff) (some e))

/-- The retry loop returns the first successful attempt's value, invoking
the function once per attempt up to it and sleeping the geometric delays
in between. -/
theorem retryLoop_success {ε α : Type} (outcomes : Nat → AttemptOutcome ε α)
    (backoff : ℚ) (v : α) :
    ∀ (rem attempt k : Nat) (cur : ℚ) (lastE : Option ε),
      attempt ≤ k → k < attempt + rem →
      outcomes k = .ok v →
      (∀ j, attempt ≤ j → j < k → ∃ e, outcomes j = .listed e) →
      retryLoop outcomes backoff attempt rem cur lastE =
        ⟨.success v, k - attempt + 1,
         (List.range (k - attempt)).map (fun j => cur * backoff ^ j)⟩ := by
  intro rem
  induction rem with
  | zero =>
    intro attempt k cur lastE h1 h2 _ _
    omega
  | succ r ih =>
    intro attempt k cur lastE h1 h2 hok hfail
    by_cases hk : k = attempt
    · subst hk
      simp [retryLoop, hok]
    · have hlt : attempt < k := lt_of_le_of_ne h1 (Ne.symm hk)
      obtain ⟨e, he⟩ := hfail attempt le_rfl hlt
      have hrne : r ≠ 0 := by omega
      simp only [retryLoop, he, if_neg hrne]
      rw [ih (attempt + 1) k (cur * backoff) (some e) (by omega) (by omega) hok
            (fun j hj1 hj2 => hfail j (by omega) hj2)]
      rw [show k - attempt = k - (attempt + 1) + 1 from by omega, ← sleeps_shift]

/-- When every remaining attempt raises a listed exception, the loop
raises `DiagnosticError` from the exception of the final attempt, after
`remaining` invocations and `remaining - 1` geometric sleeps. -/
theorem retryLoop_all_listed {ε α : Type} (outcomes : Nat → AttemptOutcome ε α)
    (backoff : ℚ) (es : Nat → ε) :
    ∀ (rem attempt : Nat) (cur : ℚ) (lastE : Option ε), 0 < rem →
      (∀ j, attempt ≤ j → j < attempt + rem → outcomes j = .listed (es j)) →
      retryLoop (α := α) outcomes backoff attempt rem cur lastE =
        ⟨.diagnosticError (es (attempt + rem - 1)), rem,
         (List.range (rem - 1)).map (fun j => cur * backoff ^ j)⟩ := by
  intro rem
  induction rem with
  | zero =>
    intro attempt cur lastE h _
    omega
  | succ r ih =>
    intro attempt cur lastE _ hall
    have he := hall attempt le_rfl (by omega)
    by_cases hr : r = 0
    · subst hr
      simp [retryLoop, he]
    · simp only [retryLoop, he, if_neg hr]
      rw [ih (attempt + 1) (cur * backoff) (some (es attempt)) (by omega)
            (fun j hj1 hj2 => hall j (by omega) (by omega))]
      rw [show attempt + (r + 1) - 1 = attempt + 1 + r - 1 from by omega,
          show r + 1 - 1 = (r - 1) + 1 from by omega, ← sleeps_shift]

/-- C7: a function wrapped by `retry(max_attempts, delay, backoff,
exceptions)` is invoked at most `max_attempts` times; if the `k`-th
invocation is the first to return normally, its value is returned after
exactly `k` invocations with sleeps `delay * backoff^0, ...,
delay * backoff^(k-2)` — so the sleep before the `k`-th re-invocation is
`delay * backoff^(k-1)`; and if all `max_attempts ≥ 1` invocations raise
listed exceptions, a `DiagnosticError` chaining the last exception is
raised after exactly `max_attempts` invocations. -/
theorem retry_spec {ε α : Type} (maxAttempts : Nat) (delay backoff : ℚ)
    (outcomes : Nat → AttemptOutcome ε α) :
    ((retryCall maxAttempts delay backoff outcomes).calls ≤ maxAttempts) ∧
    (∀ (v : α) (k : Nat), 1 ≤ k → k ≤ maxAttempts → outcomes k = .ok v →
      (∀ j, 1 ≤ j → j < k → ∃ e, outcomes j = .listed e) →
      retryCall maxAttempts delay backoff outcomes =
        ⟨.success v, k, (List.range (k - 1)).map (fun j => delay * backoff ^ j)⟩) ∧
    (∀ (es : Nat → ε), 1 ≤ maxAttempts →
      (∀ j, 1 ≤ j → j ≤ maxAttempts → outcomes j = .listed (es j)) →
      retryCall maxAttempts delay backoff outcomes =
        ⟨.diagnosticError (es maxAttempts), maxAttempts,
         (List.range (maxAttempts - 1)).map (fun j => delay * backoff ^ j)⟩) := by
  refine ⟨retryLoop_calls_le outcomes backoff maxAttempts 1 delay none, ?_, ?_⟩
  · intro v k h1 h2 hok hfail
    unfold retryCall
    rw [retryLoop_success outcomes backoff v maxAttempts 1 k delay none h1 (by omega) hok
          (fun j hj1 hj2 => hfail j hj1 hj2),
        show k - 1 + 1 = k from by omega]
  · intro es hpos hall
    unfold retryCall
    rw [retryLoop_all_listed outcomes backoff es maxAttempts 1 delay none hpos
          (fun j hj1 hj2 => hall j hj1 (by omega)),
        show 1 + maxAttempts - 1 = maxAttempts from by omega]

/-- C7 witness: three listed failures under
`retry(max_attempts=3, delay=1.0, backoff=2.0)` raise the chained
`DiagnosticError` after sleeps `1.0` and `2.0`. -/
theorem retry_spec_witness :
    retryCall 3 1 2 (fun j => (AttemptOutcome.listed j : AttemptOutcome Nat Unit)) =
      ⟨.diagnosticError 3, 3, (List.range 2).map (fun j => (1 : ℚ) * 2 ^ j)⟩ :=
  (retry_spec 3 1 2 (fun j => (AttemptOutcome.listed j : AttemptOutcome Nat Unit))).2.2
    (fun j => j) (by norm_num) (fun j _ _ => rfl)

/-! ## The record invariant over the seven probes -/

/-- Every record of `check_cuda_driver` satisfies the invariant. -/
theorem check_cuda_driver_valid (env : CudaDriverEnv) :
    ∀ i ∈ check_cuda_driver env,
      validSeverity i.severity = true ∧ validStatusToken i.status = true := by
  intro i hi
  obtain ⟨smi, runRes⟩ := env
  simp only [check_cuda_driver] at hi
  repeat' split at hi
  all_goals simp only [List.mem_singleton, List.mem_cons, List.not_mem_nil, or_false] at hi
  all_goals rcases hi with rfl | rfl
  all_goals exact ⟨rfl, rfl⟩

/-- Every record of `check_pytorch_cuda` satisfies the invariant. -/
theorem check_pytorch_cuda_valid (env : TorchEnv) :
    ∀ i ∈ check_pytorch_cuda env,
      validSeverity i.severity = true ∧ validStatusToken i.status = true := by
  intro i hi
  obtain ⟨inst, body⟩ := env
  simp only [check_pytorch_cuda] at hi
  repeat' split at hi
  all_goals simp only [List.mem_singleton, List.mem_cons, List.not_mem_nil, or_false] at hi
  all_goals rcases hi with rfl | rfl
  all_goals exact ⟨rfl, rfl⟩

/-- Every record of one library iteration satisfies the invariant. -/
theorem checkOneLib_valid (envs : String → LibEnv) (lib : String × String) :
    ∀ i ∈ checkOneLib envs lib,
      validSeverity i.severity = true ∧ validStatusToken i.status = true := by
  intro i hi
  simp only [checkOneLib] at hi
  repeat' split at hi
  all_goals simp only [List.mem_singleton, List.mem_cons, List.not_mem_nil, or_false] at hi
  all_goals rcases hi with rfl | rfl
  all_goals exact ⟨rfl, rfl⟩

/-- Every record of `check_ml_libraries` satisfies the invariant. -/
theorem check_ml_libraries_valid (envs : String → LibEnv) :
    ∀ i ∈ check_ml_libraries envs,
      validSeverity i.severity = true ∧ validStatusToken i.status = true := by
  intro i hi
  unfold check_ml_libraries at hi
  rw [List.mem_flatten] at hi
  obtain ⟨l, hl, hil⟩ := hi
  rw [List.mem_map] at hl
  obtain ⟨lib, _, rfl⟩ := hl
  exact checkOneLib_valid envs lib i hil

/-- Every record of `check_gpu_memory` satisfies the invariant. -/
theorem check_gpu_memory_valid (env : GpuMemEnv) :
    ∀ i ∈ check_gpu_memory env,
      validSeverity i.severity = true ∧ validStatusToken i.status = true := by
  intro i hi
  obtain ⟨avail, mem⟩ := env
  simp only [check_gpu_memory] at hi
  repeat' split at hi
  all_goals simp only [List.mem_singleton, List.mem_cons, List.not_mem_nil, or_false] at hi
  all_goals rcases hi with rfl | rfl
  all_goals exact ⟨rfl, rfl⟩

/-- Every record of `check_disk_space` satisfies the invariant. -/
theorem check_disk_space_valid (env : DiskEnv) :
    ∀ i ∈ check_disk_space env,
      validSeverity i.severity = true ∧ validStatusToken i.status = true := by
  intro i hi
  obtain ⟨body⟩ := env
  simp only [check_disk_space] at hi
  repeat' split at hi
  all_goals simp only [List.mem_singleton, List.mem_cons, List.not_mem_nil, or_false] at hi
  all_goals rcases hi with rfl | rfl
  all_goals exact ⟨rfl, rfl⟩

/-- Every record of `check_docker_gpu` satisfies the invariant. -/
theorem check_docker_gpu_valid (env : DockerEnv) :
    ∀ i ∈ check_docker_gpu env,
      validSeverity i.severity = true ∧ validStatusToken i.status = true := by
  intro i hi
  obtain ⟨dkr, runRes⟩ := env
  simp only [check_docker_gpu] at hi
  repeat' split at hi
  all_goals simp only [List.mem_singleton, List.mem_cons, List.not_mem_nil, or_false] at hi
  all_goals rcases hi with rfl | rfl
  all_goals exact ⟨rfl, rfl⟩

/-- Every record of `check_internet_connectivity` satisfies the
invariant. -/
theorem check_internet_connectivity_valid (netOutcomes : Nat → AttemptOutcome String Unit) :
    ∀ i ∈ check_internet_connectivity netOutcomes,
      validSeverity i.severity = true ∧ validStatusToken i.status = true := by
  intro i hi
  simp only [check_internet_connectivity] at hi
  repeat' split at hi
  all_goals simp only [List.mem_singleton, List.mem_cons, List.not_mem_nil, or_false] at hi
  all_goals rcases hi with rfl | rfl
  all_goals exact ⟨rfl, rfl⟩

/-- C4: every `DiagnosticIssue` produced by any of the seven probe
functions, under every environment, has a severity in
`critical`/`warning`/`info` and a status whose first whitespace-separated
token is `PASS`, `FAIL`, `WARN` or `INFO`. -/
theorem probe_issue_invariant
    (e1 : CudaDriverEnv) (e2 : TorchEnv) (e3 : String → LibEnv) (e4 : GpuMemEnv)
    (e5 : DiskEnv) (e6 : DockerEnv) (e7 : Nat → AttemptOutcome String Unit) :
    ∀ i ∈ check_cuda_driver e1 ++ check_pytorch_cuda e2 ++ check_ml_libraries e3 ++
        check_gpu_memory e4 ++ check_disk_space e5 ++ check_docker_gpu e6 ++
        check_internet_connectivity e7,
      validSeverity i.severity = true ∧ validStatusToken i.status = true := by
  intro i hi
  simp only [List.mem_append] at hi
  rcases hi with ((((((h | h) | h) | h) | h) | h) | h)
  exacts [check_cuda_driver_valid e1 i h, check_pytorch_cuda_valid e2 i h,
          check_ml_libraries_valid e3 i h, check_gpu_memory_valid e4 i h,
          check_disk_space_valid e5 i h, check_docker_gpu_valid e6 i h,
          check_internet_connectivity_valid e7 i h]

/-- C4 witness: a concrete record of a concrete probe run satisfies the
invariant. -/
theorem probe_issue_invariant_witness :
    ((⟨"NVIDIA GPU Driver", "FAIL - nvidia-smi not found", "critical",
       "Install NVIDIA drivers: https://www.nvidia.com/Download/index.aspx", none⟩ :
        DiagnosticIssue) ∈
      check_cuda_driver ⟨false, .error ""⟩ ++ check_pytorch_cuda ⟨false, .error ""⟩ ++
        check_ml_libraries (fun _ => ⟨false, none, none⟩) ++
        check_gpu_memory ⟨false, .error ""⟩ ++ check_disk_space ⟨.error "d"⟩ ++
        check_docker_gpu ⟨false, .error ""⟩ ++
        check_internet_connectivity (fun _ => .listed "e")) ∧
    validSeverity "critical" = true ∧
    validStatusToken "FAIL - nvidia-smi not found" = true :=
  ⟨by decide,
   probe_issue_invariant ⟨false, .error ""⟩ ⟨false, .error ""⟩
     (fun _ => ⟨false, none, none⟩) ⟨false, .error ""⟩ ⟨.error "d"⟩ ⟨false, .error ""⟩
     (fun _ => .listed "e")
     ⟨"NVIDIA GPU Driver", "FAIL - nvidia-smi not found", "critical",
      "Install NVIDIA drivers: https://www.nvidia.com/Download/index.aspx", none⟩
     (by decide)⟩

end MlEnvDoctor

